import Mathlib

/-!
Shallow embedding of the ReEnvision-AI systray lifecycle supervisor
(`app/lifecycle/lifecycle.go`) and of the power helpers (`app/power/power.go`).

External effects (the `podman` / `nvidia-smi` command executions, the
`LoadConfig` call, pipe creation, `cmd.Start()`, and the Windows
`SetThreadExecutionState` API) are modelled by oracle inputs that record the
outcome the environment produced for each call.  The mutable package state
(`currentState`, `currentCmd`, `cancelCmd`, ghost instrumentation) is threaded
explicitly through each function.  Dispatcher-level events are atomic steps:
the callback loop in `Run` handles one event at a time.
-/

/-- Application states, from the `AppState` constants in `lifecycle.go`
(lines 230-237). -/
inductive AppState where
  | StateStopped
  | StateStarting
  | StateRunning
  | StateStopping
  | StateThankyou
  | StateError
deriving DecidableEq, Repr

/-- `podmanMachineStartTimeout = 5 * time.Minute` (lifecycle.go line 517),
in seconds. -/
def podmanMachineStartTimeout : Nat := 300

/-- `podmanInfoPollInterval = 5 * time.Second` (lifecycle.go line 518),
in seconds. -/
def podmanInfoPollInterval : Nat := 5

/-- `podmanStopTimeout = 30 * time.Second` (lifecycle.go line 519), in
seconds. -/
def podmanStopTimeout : Nat := 30

/-- `time.Sleep(3 * time.Second)` in the wake-restart goroutine
(lifecycle.go line 485), in seconds. -/
def wakeSettleDelaySeconds : Nat := 3

/-- Outcome of one `podman info` readiness wait. -/
inductive WaitResult where
  | ready
  | timedOut
deriving DecidableEq, Repr

/-- Number of ticks of the `podmanInfoPollInterval` ticker that fire before
the `podmanMachineStartTimeout` deadline of `waitCtx` expires
(lifecycle.go lines 769-793). -/
def podmanPollBudget : Nat := podmanMachineStartTimeout / podmanInfoPollInterval

/-- The polling loop of `waitForPodman` (lifecycle.go lines 776-793): each
list entry is the exit status of one `podman info` run (`true` = exit code 0);
a success returns ready at once, exhausting the ticks that fire before the
deadline returns the timeout error. -/
def waitForPodmanLoop : List Bool → WaitResult
  | [] => .timedOut
  | p :: ps => if p then .ready else waitForPodmanLoop ps

/-- `waitForPodman` (lifecycle.go lines 752-794).  `machineStartOk` is the
outcome of the initial `podman machine start` command, whose error is logged
and ignored; `polls` are the exit statuses of the successive `podman info`
runs, of which at most `podmanPollBudget` fire before the deadline. -/
def waitForPodman (machineStartOk : Bool) (polls : List Bool) : WaitResult :=
  waitForPodmanLoop (polls.take podmanPollBudget)

/-- Time (seconds after the loop starts) at which the i-th `podman info`
check fires: the ticker created with `podmanInfoPollInterval` delivers its
first tick one full interval after creation. -/
def pollTime (i : Nat) : Nat := (i + 1) * podmanInfoPollInterval

/-- Outcome of `cmd.Output()` in `checkNvidiaGPU` (lifecycle.go line 842). -/
inductive OutputResult where
  /-- The command ran and exited with status zero; `output` is its stdout. -/
  | ok (output : List Char)
  /-- The command ran but exited with non-zero status (`exec.ExitError`). -/
  | exitError (stderr : List Char)
  /-- The command could not be executed at all (e.g. binary not found). -/
  | execFailed
deriving DecidableEq, Repr

/-- The only error value `checkNvidiaGPU` can return:
`fmt.Errorf("failed to execute nvidia-smi: %w", err)` (line 852). -/
inductive GpuCheckError where
  | execFailure
deriving DecidableEq, Repr

/-- `checkNvidiaGPU` (lifecycle.go lines 836-862): an `exec.ExitError` is
treated as "no GPU found" with a nil error; any other execution error is
returned; on success the GPU is reported present exactly when the output is
non-empty. -/
def checkNvidiaGPU : OutputResult → Bool × Option GpuCheckError
  | .ok output => (decide (0 < output.length), none)
  | .exitError _ => (false, none)
  | .execFailed => (false, some .execFailure)

/-- Error values produced by `setupPodmanNvidia` (lifecycle.go
lines 796-834). -/
inductive SetupError where
  /-- `errors.New("error checking for Nvidia GPU")` (line 804). -/
  | gpuCheckError
  /-- `errors.New("no Nvidia GPU detected")` (line 810). -/
  | noGPU
  /-- `fmt.Errorf("nvidia CDI setup failed: ...")` (line 829). -/
  | cdiFailed
deriving DecidableEq, Repr

/-- Error values returned by `StartContainer` (lifecycle.go
lines 528-649). -/
inductive StartError where
  /-- `LoadConfig` failed (line 532). -/
  | configError
  /-- `fmt.Errorf("podman service check failed")` (line 538). -/
  | podmanCheckFailed
  /-- `fmt.Errorf("failed to setup Podman for NVIDIA: %w", err)` (line 544). -/
  | nvidiaSetupFailed
  /-- `fmt.Errorf("failed to get stdout pipe: %w", err)` (line 569). -/
  | stdoutPipeFailed
  /-- `fmt.Errorf("failed to get stderr pipe: %w", err)` (line 577). -/
  | stderrPipeFailed
  /-- `fmt.Errorf("failed to start podman command: %w", err)` (line 607). -/
  | startFailed
deriving DecidableEq, Repr

/-- The error returned by `StopContainer` when `podman stop` failed with an
error other than context cancellation or deadline exceeded (lifecycle.go
lines 697-699). -/
inductive StopError where
  | podmanStopFailed
deriving DecidableEq, Repr

/-- Non-nil outcomes of `currentCmd.Wait()` seen by the exit-cleanup
goroutine (lifecycle.go line 616). -/
inductive WaitErr where
  /-- `context.Canceled`: the run context was cancelled. -/
  | canceled
  /-- Any other non-nil error (unexpected failure exit). -/
  | exitFailure
deriving DecidableEq, Repr

/-- The mutable package-level state of `lifecycle.go`, plus ghost
instrumentation recording the observable actions the claims speak about.
`live` holds the pids of `podman run` processes that have been started
(`currentCmd.Start()` succeeded) and whose `Wait` has not yet returned. -/
structure Sys where
  /-- Global `currentState` (line 240). -/
  currentState : AppState
  /-- Global `currentCmd` (line 523): pid of the stored command handle. -/
  currentCmd : Option Nat
  /-- Global `cancelCmd` (line 524): pid whose cancel function is stored. -/
  cancelCmd : Option Nat
  /-- Ghost: pids of spawned, not-yet-exited `podman run` processes. -/
  live : List Nat
  /-- Ghost: next fresh pid. -/
  nextPid : Nat
  /-- Ghost: number of completed `LoadConfig` calls. -/
  configLoads : Nat
  /-- Ghost: number of invocations of the stored cancel function. -/
  cancelCalls : Nat
  /-- Ghost: every state passed to `SetState`, most recent first. -/
  stateHistory : List AppState
deriving DecidableEq, Repr

/-- The initial package state: `currentState = StateStopped`, no command. -/
def initSys : Sys :=
  { currentState := .StateStopped, currentCmd := none, cancelCmd := none,
    live := [], nextPid := 0, configLoads := 0, cancelCalls := 0,
    stateHistory := [] }

/-- `SetState` (lifecycle.go lines 363-382) restricted to its effect on the
lifecycle state (the tray update and the best-effort power call have no
bearing on the embedded state). -/
def SetState (newState : AppState) (s : Sys) : Sys :=
  { s with currentState := newState,
           stateHistory := newState :: s.stateHistory }

/-- Setup step of `StartContainer`: `setupPodmanNvidia` (lifecycle.go
lines 796-834).  `smi` is the outcome of `nvidia-smi --list-gpus`, `cdiOk`
that of the `podman machine ssh` CDI-generation command.  In the no-GPU case
the state is set to `StateThankyou` and an error is still returned. -/
def setupPodmanNvidia (smi : OutputResult) (cdiOk : Bool) (s : Sys) :
    Sys × Option SetupError :=
  match checkNvidiaGPU smi with
  | (_, some _) => (s, some .gpuCheckError)
  | (hasGPU, none) =>
    if !hasGPU then (SetState .StateThankyou s, some .noGPU)
    else if cdiOk then (s, none)
    else (s, some .cdiFailed)

/-- Environment outcomes consumed by one run of `StartContainer`. -/
structure StartOracle where
  /-- `LoadConfig()` succeeds (line 530). -/
  configOk : Bool
  /-- Outcome of `podman machine start` (logged, ignored; line 757). -/
  machineStartOk : Bool
  /-- Exit statuses of the successive `podman info` checks (line 782). -/
  podmanPolls : List Bool
  /-- Outcome of `nvidia-smi --list-gpus` (line 839). -/
  nvidiaSmi : OutputResult
  /-- Outcome of the CDI-generation ssh command (line 818). -/
  cdiOk : Bool
  /-- `currentCmd.StdoutPipe()` succeeds (line 564). -/
  stdoutPipeOk : Bool
  /-- `currentCmd.StderrPipe()` succeeds (line 572). -/
  stderrPipeOk : Bool
  /-- `currentCmd.Start()` succeeds (line 589). -/
  startOk : Bool
deriving DecidableEq, Repr

/-- The spawn phase of `StartContainer` (lifecycle.go lines 547-648), from
the `stateMu.Lock()` at line 547 onward.  The under-lock re-check aborts with
a nil error when `currentState` is no longer `StateStarting` (a concurrent
stop moved it during the unlocked readiness/setup phase).  Otherwise the
handle and its cancel function are stored, the pipes are created, the command
is started, and on success the state becomes `StateRunning`.  On a pipe or
start failure the cancel function is invoked and `currentCmd` is cleared (the
`cancelCmd` variable itself is left set, as in the source). -/
def startContainerSpawn (o : StartOracle) (s : Sys) : Sys × Option StartError :=
  if s.currentState == .StateStarting then
    let pid := s.nextPid
    let s1 := { s with cancelCmd := some pid, currentCmd := some pid,
                       nextPid := pid + 1 }
    if !o.stdoutPipeOk then
      ({ s1 with cancelCalls := s1.cancelCalls + 1, currentCmd := none },
       some .stdoutPipeFailed)
    else if !o.stderrPipeOk then
      ({ s1 with cancelCalls := s1.cancelCalls + 1, currentCmd := none },
       some .stderrPipeFailed)
    else if !o.startOk then
      ({ s1 with cancelCalls := s1.cancelCalls + 1, currentCmd := none },
       some .startFailed)
    else
      (SetState .StateRunning { s1 with live := pid :: s1.live }, none)
  else
    (s, none)

/-- `StartContainer` (lifecycle.go lines 528-649): load config, wait for the
podman service, run the NVIDIA setup, then the under-lock spawn phase. -/
def StartContainer (o : StartOracle) (s : Sys) : Sys × Option StartError :=
  if !o.configOk then (s, some .configError)
  else
    let s1 := { s with configLoads := s.configLoads + 1 }
    match waitForPodman o.machineStartOk o.podmanPolls with
    | .timedOut => (s1, some .podmanCheckFailed)
    | .ready =>
      match setupPodmanNvidia o.nvidiaSmi o.cdiOk s1 with
      | (s2, some _) => (s2, some .nvidiaSetupFailed)
      | (s2, none) => startContainerSpawn o s2

/-- `handleStartRequest` (lifecycle.go lines 384-395): unconditionally set
`StateStarting`, run `StartContainer`, and set `StateError` on any error. -/
def handleStartRequest (o : StartOracle) (s : Sys) : Sys :=
  match StartContainer o (SetState .StateStarting s) with
  | (s2, some _) => SetState .StateError s2
  | (s2, none) => s2

/-- `StopContainer` (lifecycle.go lines 651-702).  `stopCmdOk` is true when
the `podman stop` command succeeded, or failed only with context
cancellation / deadline exceeded (in which cases no error is returned).
Regardless of that outcome, the stored cancel function, when present, is
invoked; neither `currentCmd` nor `cancelCmd` is cleared here. -/
def StopContainer (stopCmdOk : Bool) (s : Sys) : Sys × Option StopError :=
  let s1 :=
    match s.cancelCmd with
    | some _ => { s with cancelCalls := s.cancelCalls + 1 }
    | none => s
  if stopCmdOk then (s1, none) else (s1, some .podmanStopFailed)

/-- `handleStopRequest` (lifecycle.go lines 397-411): set `StateStopping`,
run `StopContainer`, and set `StateStopped` on both the error and the
success branch. -/
def handleStopRequest (stopCmdOk : Bool) (s : Sys) : Sys :=
  let s1 := SetState .StateStopping s
  match StopContainer stopCmdOk s1 with
  | (s2, some _) => SetState .StateStopped s2
  | (s2, none) => SetState .StateStopped s2

/-- The actions of the exit-cleanup goroutine spawned at lifecycle.go
line 614, in source order. -/
inductive CleanupAction where
  /-- `waitErr := currentCmd.Wait()` (line 616). -/
  | cmdWait
  /-- `wg.Wait()` for both output-capture goroutines (line 619). -/
  | outputWgWait
  /-- `currentCmd = nil; cancelCmd = nil` under `stateMu` (lines 625-626). -/
  | clearHandle
  /-- The conditional `SetState` calls (lines 629-645). -/
  | stateUpdate
deriving DecidableEq, Repr

/-- Source order of the exit-cleanup goroutine body (lines 614-646). -/
def exitGoroutineOrder : List CleanupAction :=
  [.cmdWait, .outputWgWait, .clearHandle, .stateUpdate]

/-- Body of the exit-cleanup goroutine (lifecycle.go lines 614-646) for the
process `pid`, run after `currentCmd.Wait()` has returned `waitErr` and
`wg.Wait()` has returned: record whether a stop is in progress, clear the
handle and cancel function, then transition to `StateError` on an unexpected
failing exit, to `StateStopped` on an unexpected normal exit, and perform no
transition when a stop is in progress. -/
def exitCleanup (pid : Nat) (waitErr : Option WaitErr) (s : Sys) : Sys :=
  let isStopping : Bool := s.currentState == .StateStopping
  let s1 := { s with currentCmd := none, cancelCmd := none,
                     live := s.live.erase pid }
  match waitErr with
  | some e =>
    if !((e == .canceled) && isStopping) then
      if !isStopping then SetState .StateError s1 else s1
    else s1
  | none =>
    if !isStopping then SetState .StateStopped s1 else s1

/-- `handleSleepEvent` (lifecycle.go lines 445-463): the new value of
`wasRunningBeforeSleep` records whether the state is `StateRunning`. -/
def handleSleepEvent (currentState : AppState) : Bool :=
  currentState == .StateRunning

/-- Result of one `handleWakeEvent` call. -/
structure WakeOutcome where
  /-- The value of `wasRunningBeforeSleep` after the call. -/
  wasRunningBeforeSleep : Bool
  /-- Whether one restart goroutine (3-second settle delay, then
  `handleStartRequest`) was scheduled. -/
  scheduledStart : Bool
deriving DecidableEq, Repr

/-- `handleWakeEvent` (lifecycle.go lines 466-497): when the flag is set and
the state allows it (`StateStopped` or `StateError`), schedule exactly one
delayed start; whenever the flag was set, clear it. -/
def handleWakeEvent (wasRunningBeforeSleep : Bool) (currentState : AppState) :
    WakeOutcome :=
  if wasRunningBeforeSleep then
    if currentState == .StateStopped || currentState == .StateError then
      { wasRunningBeforeSleep := false, scheduledStart := true }
    else
      { wasRunningBeforeSleep := false, scheduledStart := false }
  else
    { wasRunningBeforeSleep := wasRunningBeforeSleep, scheduledStart := false }

/-- Dispatcher-level events of the callback loop in `Run` (lifecycle.go
lines 295-333), plus the completion of an exit-cleanup goroutine. -/
inductive Ev where
  | startRequested (o : StartOracle)
  | stopRequested (stopCmdOk : Bool)
  | procExited (pid : Nat) (waitErr : Option WaitErr)
deriving DecidableEq, Repr

/-- One dispatcher step. -/
def step (e : Ev) (s : Sys) : Sys :=
  match e with
  | .startRequested o => handleStartRequest o s
  | .stopRequested stopCmdOk => handleStopRequest stopCmdOk s
  | .procExited pid waitErr => exitCleanup pid waitErr s

/-- Run a sequence of dispatcher events from a state. -/
def run (evs : List Ev) (s : Sys) : Sys :=
  evs.foldl (fun s e => step e s) s

/-- An oracle under which every external call succeeds and `nvidia-smi`
reports one GPU. -/
def okOracle : StartOracle :=
  { configOk := true, machineStartOk := true, podmanPolls := [true],
    nvidiaSmi := .ok ['G'], cdiOk := true, stdoutPipeOk := true,
    stderrPipeOk := true, startOk := true }

/-- Like `okOracle`, but `nvidia-smi` runs and exits non-zero (no GPU). -/
def noGpuOracle : StartOracle :=
  { okOracle with nvidiaSmi := .exitError [] }

/-- Like `okOracle`, but `nvidia-smi` cannot be executed at all. -/
def smiAbsentOracle : StartOracle :=
  { okOracle with nvidiaSmi := .execFailed }

/-- Results of the power functions in `power.go`: nil, the two distinguished
sentinel errors, or a wrapped `SetThreadExecutionState` failure. -/
inductive PowerResult where
  | ok
  /-- `ErrAlreadyPrevented` (power.go line 253). -/
  | errAlreadyPrevented
  /-- `ErrAlreadyAllowed` (power.go line 256). -/
  | errAlreadyAllowed
  /-- `fmt.Errorf("failed to prevent sleep/suspend: %w", err)` (line 296). -/
  | preventFailed
  /-- `fmt.Errorf("failed to explicitly allow sleep/suspend via API: %w",
  err)` (line 319). -/
  | allowFailed
deriving DecidableEq, Repr

/-- `PreventSleep` (power.go lines 285-302).  `apiOk` is whether the
`SetThreadExecutionState` call succeeds.  The flag is set only after a
successful API call. -/
def PreventSleep (apiOk : Bool) (isSleepPrevented : Bool) :
    PowerResult × Bool :=
  if isSleepPrevented then (.errAlreadyPrevented, isSleepPrevented)
  else if apiOk then (.ok, true)
  else (.preventFailed, isSleepPrevented)

/-- `AllowSleep` (power.go lines 304-324).  The flag is cleared before the
API error is examined, so it is cleared even when the call fails. -/
def AllowSleep (apiOk : Bool) (isSleepPrevented : Bool) :
    PowerResult × Bool :=
  if !isSleepPrevented then (.errAlreadyAllowed, isSleepPrevented)
  else if apiOk then (.ok, false)
  else (.allowFailed, false)

/-- The state after one successful start from the initial state: running,
with one live process whose handle and cancel function are stored. -/
def runningSys : Sys := handleStartRequest okOracle initSys

/-- Claim C1 (code evaluated at the failing input): `handleStartRequest` has
no duplicate-start guard.  From `StateRunning` with one live process, a
further `StartRequested` event is not rejected: the state is moved through
`StateStarting` back to `StateRunning`, `LoadConfig` runs a second time, and
a second subprocess lifecycle is begun (`live = [1, 0]`). -/
theorem handleStartRequest_no_duplicate_guard :
    runningSys.currentState = .StateRunning ∧
    runningSys.live.length = 1 ∧
    handleStartRequest okOracle runningSys =
      { currentState := .StateRunning, currentCmd := some 1,
        cancelCmd := some 1, live := [1, 0], nextPid := 2, configLoads := 2,
        cancelCalls := 0,
        stateHistory := [.StateRunning, .StateStarting, .StateRunning,
                         .StateStarting] } := by decide

/-- Claim C2 (code evaluated at the failing input): after the event sequence
`StartRequested; StartRequested` with all external calls succeeding, two
`podman run` processes are alive simultaneously, refuting the at-most-one
invariant; the second half of the claim does hold: in the exit-cleanup
goroutine the handle is cleared only after `currentCmd.Wait()` and
`wg.Wait()` have both returned. -/
theorem double_start_two_live_processes :
    (run [.startRequested okOracle, .startRequested okOracle]
        initSys).live.length = 2 ∧
    exitGoroutineOrder.indexOf .cmdWait <
      exitGoroutineOrder.indexOf .clearHandle ∧
    exitGoroutineOrder.indexOf .outputWgWait <
      exitGoroutineOrder.indexOf .clearHandle := by decide

/-- Claim C3 (code evaluated at the failing input): a start during which
readiness succeeds and `nvidia-smi` runs but reports no GPU ends with
`currentState = StateError`, not `StateThankyou`: `setupPodmanNvidia` sets
`StateThankyou` but then returns an error, which `handleStartRequest` turns
into `SetState(StateError)`; the history shows the transient `StateThankyou`
being overwritten.  No subprocess is spawned. -/
theorem noGPU_start_ends_in_error :
    handleStartRequest noGpuOracle initSys =
      { initSys with currentState := .StateError, configLoads := 1,
                     stateHistory := [.StateError, .StateThankyou,
                                      .StateStarting] } := by decide

/-- Claim C4: if the state observed under the lock at the re-check of
`StartContainer` is no longer `StateStarting` (a stop moved it during the
unlocked readiness-wait phase), the spawn phase returns a nil error without
spawning a subprocess and without any transition — in particular it never
sets `StateRunning`. -/
theorem startContainerSpawn_aborts_when_not_starting
    (o : StartOracle) (s : Sys) (h : s.currentState ≠ .StateStarting) :
    startContainerSpawn o s = (s, none) := by
  have hb : (s.currentState == .StateStarting) = false :=
    beq_eq_false_iff_ne.mpr h
  simp [startContainerSpawn, hb]

/-- Witness for claim C4: after a stop request has moved the state to
`StateStopped`, the spawn phase aborts and leaves the state untouched. -/
theorem startContainerSpawn_abort_witness :
    startContainerSpawn okOracle (handleStopRequest true initSys) =
      (handleStopRequest true initSys, none) :=
  startContainerSpawn_aborts_when_not_starting okOracle
    (handleStopRequest true initSys) (by decide)

/-- Claim C5: the exit-cleanup goroutine transitions to `StateError` when
`Wait` returned a non-nil error and no stop was in progress, to
`StateStopped` when `Wait` returned nil and no stop was in progress, and
performs no state transition at all (state and `SetState` history unchanged)
when the state at cleanup time is `StateStopping`. -/
theorem exitCleanup_state_transitions (pid : Nat) (e : WaitErr)
    (w : Option WaitErr) (s : Sys) :
    (s.currentState ≠ .StateStopping →
       (exitCleanup pid (some e) s).currentState = .StateError ∧
       (exitCleanup pid none s).currentState = .StateStopped) ∧
    (s.currentState = .StateStopping →
       (exitCleanup pid w s).currentState = s.currentState ∧
       (exitCleanup pid w s).stateHistory = s.stateHistory) := by
  constructor
  · intro h
    have hb : (s.currentState == .StateStopping) = false :=
      beq_eq_false_iff_ne.mpr h
    cases e <;> simp [exitCleanup, SetState, hb]
  · intro h
    have hb : (s.currentState == .StateStopping) = true := by
      simp [h]
    cases w with
    | none => simp [exitCleanup, hb, h]
    | some e => cases e <;> simp [exitCleanup, hb, h]

/-- Witness for claim C5: from the initial (non-stopping) state, a failing
exit yields `StateError` and a normal exit yields `StateStopped`. -/
theorem exitCleanup_state_transitions_witness :
    (exitCleanup 0 (some .exitFailure) initSys).currentState = .StateError ∧
    (exitCleanup 0 none initSys).currentState = .StateStopped :=
  (exitCleanup_state_transitions 0 .exitFailure none initSys).1 (by decide)

/-- Claim C6: every `StopRequested` handling enters `StateStopping` and ends
with `currentState = StateStopped`, whether or not the `podman stop` command
succeeded; and the stored cancel function, when one is active, is invoked
exactly once (when none is active, no cancel call happens). -/
theorem handleStopRequest_always_stops (stopCmdOk : Bool) (s : Sys) :
    (handleStopRequest stopCmdOk s).currentState = .StateStopped ∧
    (handleStopRequest stopCmdOk s).stateHistory =
      .StateStopped :: .StateStopping :: s.stateHistory ∧
    (s.cancelCmd.isSome = true →
       (handleStopRequest stopCmdOk s).cancelCalls = s.cancelCalls + 1) ∧
    (s.cancelCmd = none →
       (handleStopRequest stopCmdOk s).cancelCalls = s.cancelCalls) := by
  cases hc : s.cancelCmd <;> cases stopCmdOk <;>
    simp [handleStopRequest, StopContainer, SetState, hc]

/-- Witness for claim C6: stopping the running system (active cancel
function, failing `podman stop`) ends in `StateStopped` with the cancel
function invoked. -/
theorem handleStopRequest_always_stops_witness :
    (handleStopRequest false runningSys).currentState = .StateStopped ∧
    (handleStopRequest false runningSys).cancelCalls =
      runningSys.cancelCalls + 1 :=
  ⟨(handleStopRequest_always_stops false runningSys).1,
   (handleStopRequest_always_stops false runningSys).2.2.1 (by decide)⟩

/-- Claim C7: after every `handleWakeEvent` the `wasRunningBeforeSleep` flag
is false; exactly one start (after the fixed 3-second settle delay) is
scheduled if and only if the flag was true at wake time and the state at wake
time is `StateStopped` or `StateError`; in every other case nothing is
scheduled and no state is touched. -/
theorem handleWakeEvent_spec (flag : Bool) (st : AppState) :
    (handleWakeEvent flag st).wasRunningBeforeSleep = false ∧
    ((handleWakeEvent flag st).scheduledStart = true ↔
       flag = true ∧ (st = .StateStopped ∨ st = .StateError)) ∧
    wakeSettleDelaySeconds = 3 := by
  cases flag <;> cases st <;> decide

/-- Claim C8: `waitForPodman` returns success exactly when one of the
`podman info` checks that fire before the 5-minute deadline exits with status
zero; in every other case it returns the timeout error (it is a total
function, so it cannot loop forever); the constants are 5 seconds and
5 minutes, and consecutive polls are exactly one fixed interval apart (no
backoff). -/
theorem waitForPodman_spec (machineStartOk : Bool) (polls : List Bool) :
    (waitForPodman machineStartOk polls = .ready ↔
       true ∈ polls.take podmanPollBudget) ∧
    (waitForPodman machineStartOk polls ≠ .ready →
       waitForPodman machineStartOk polls = .timedOut) ∧
    podmanInfoPollInterval = 5 ∧ podmanMachineStartTimeout = 300 ∧
    (∀ i, pollTime (i + 1) = pollTime i + podmanInfoPollInterval) := by
  refine ⟨?_, ?_, rfl, rfl, ?_⟩
  · show waitForPodmanLoop (polls.take podmanPollBudget) = .ready ↔ _
    induction polls.take podmanPollBudget with
    | nil => simp [waitForPodmanLoop]
    | cons p ps ih => cases p <;> simp [waitForPodmanLoop, ih]
  · intro h
    cases hr : waitForPodman machineStartOk polls
    · exact absurd hr h
    · rfl
  · intro i
    simp [pollTime, podmanInfoPollInterval]
    ring

/-- Witness for claim C8: with two failing checks and no further tick before
the deadline, the wait returns the timeout error. -/
theorem waitForPodman_spec_witness :
    waitForPodman true [false, false] = .timedOut :=
  (waitForPodman_spec true [false, false]).2.1 (by decide)

/-- Counterexample to claim C9 as stated: starting with sleep not prevented
and the `SetThreadExecutionState` API failing on both calls, the second of
two consecutive `PreventSleep` calls returns the wrapped API error, not the
distinguished `ErrAlreadyPrevented` (the flag is only set after a successful
API call, so the second call retries). -/
theorem preventSleep_pair_counterexample :
    (PreventSleep false (PreventSleep false false).2).1 ≠
      .errAlreadyPrevented ∧
    (PreventSleep false (PreventSleep false false).2).1 = .preventFailed := by
  decide

/-- Claim C9 as amended: provided the state was already prevented or the
first call's `SetThreadExecutionState` succeeds, the second of two
consecutive `PreventSleep` calls returns `ErrAlreadyPrevented` and the flag
after the pair equals its value after the first call; for `AllowSleep` the
same holds for every starting state and every API outcome, because the flag
is cleared even when the API call fails. -/
theorem sleep_idempotence_amended (s api1 api2 : Bool) :
    (s = true ∨ api1 = true →
       (PreventSleep api2 (PreventSleep api1 s).2).1 = .errAlreadyPrevented ∧
       (PreventSleep api2 (PreventSleep api1 s).2).2 =
         (PreventSleep api1 s).2) ∧
    (AllowSleep api2 (AllowSleep api1 s).2).1 = .errAlreadyAllowed ∧
    (AllowSleep api2 (AllowSleep api1 s).2).2 = (AllowSleep api1 s).2 := by
  cases s <;> cases api1 <;> cases api2 <;> decide

/-- Witness for claim C9 (amended): not prevented, first API call succeeds,
second fails — the second `PreventSleep` still reports `ErrAlreadyPrevented`
and the flag stays as after the first call; `AllowSleep` pairs behave
likewise. -/
theorem sleep_idempotence_amended_witness :
    ((PreventSleep false (PreventSleep true false).2).1 =
        .errAlreadyPrevented ∧
     (PreventSleep false (PreventSleep true false).2).2 =
       (PreventSleep true false).2) ∧
    (AllowSleep false (AllowSleep true false).2).1 = .errAlreadyAllowed ∧
    (AllowSleep false (AllowSleep true false).2).2 =
      (AllowSleep true false).2 :=
  ⟨(sleep_idempotence_amended false true false).1 (Or.inr rfl),
   (sleep_idempotence_amended false true false).2⟩

/-- Claim C10: `checkNvidiaGPU` returns (false, nil) when `nvidia-smi` runs
but exits non-zero; it returns an error only when the command cannot be
executed; on success it reports a GPU exactly when the output is non-empty.
Consequently `setupPodmanNvidia` takes the hard-failure path (error, no
`StateThankyou`) when `nvidia-smi` is absent, and the soft no-GPU path when
it exits non-zero; a start on a machine without `nvidia-smi` ends in
`StateError` with `StateThankyou` never entered. -/
theorem checkNvidiaGPU_spec (stderr out : List Char) (cdiOk : Bool)
    (s : Sys) :
    checkNvidiaGPU (.exitError stderr) = (false, none) ∧
    checkNvidiaGPU .execFailed = (false, some .execFailure) ∧
    ((checkNvidiaGPU (.ok out)).2 = none ∧
      ((checkNvidiaGPU (.ok out)).1 = true ↔ 0 < out.length)) ∧
    setupPodmanNvidia .execFailed cdiOk s = (s, some .gpuCheckError) ∧
    setupPodmanNvidia (.exitError stderr) cdiOk s =
      (SetState .StateThankyou s, some .noGPU) ∧
    (handleStartRequest smiAbsentOracle initSys).stateHistory =
      [.StateError, .StateStarting] := by
  refine ⟨rfl, rfl, ⟨rfl, by simp [checkNvidiaGPU]⟩, ?_, ?_, by decide⟩
  · simp [setupPodmanNvidia, checkNvidiaGPU]
  · simp [setupPodmanNvidia, checkNvidiaGPU]
